import Mathlib

-- Verification of the napalm connection helpers: the SR-OS driver
-- (napalm/sros/sros.py), the custom IOS driver (napalm/custom_napalm/ios.py)
-- and the connection opener (napalm/NAPALM.py).
--
-- Text is modelled as a list of characters.  Python `re.sub` with the
-- MULTILINE flag on a line-anchored pattern acts line by line, so it is
-- embedded as a map over the lines obtained by splitting on the newline
-- character.

set_option autoImplicit false

namespace Napalm

abbrev Text := List Char

-- ===== Output normalizer: SROSDriver._send_command_postprocess =====

-- Python str.strip() whitespace set (ASCII part).
def pySpace (c : Char) : Bool :=
  c = ' ' || c = '\t' || c = '\n' || c = '\r' || c = '\x0b' || c = '\x0c'

-- Split a text on newline characters; never returns the empty list
-- (mirrors str.split('\n') / the line structure seen by re.M).
def splitLines : Text → List Text
  | [] => [[]]
  | c :: cs =>
    if c = '\n' then [] :: splitLines cs
    else
      match splitLines cs with
      | [] => [[c]]
      | l :: ls => (c :: l) :: ls

def joinLines : List Text → Text
  | [] => []
  | [l] => l
  | l :: l' :: ls => l ++ '\n' :: joinLines (l' :: ls)

-- The two banner patterns of _send_command_postprocess.  A line matches
-- r"^Load for five secs.*$" (resp. r"^Time source is .*$") exactly when it
-- starts with the literal prefix below; re.sub replaces the matched line
-- content with the empty string.
def loadPat : Text := "Load for five secs".data

def timePat : Text := "Time source is ".data

def killLoad (l : Text) : Text := if loadPat.isPrefixOf l then [] else l

def killTime (l : Text) : Text := if timePat.isPrefixOf l then [] else l

-- re.sub(r"^Load for five secs.*$", "", output, flags=re.M)
def subLoad (s : Text) : Text := joinLines ((splitLines s).map killLoad)

-- re.sub(r"^Time source is .*$", "", output, flags=re.M)
def subTime (s : Text) : Text := joinLines ((splitLines s).map killTime)

def ltrim (s : Text) : Text := s.dropWhile pySpace

def rtrim (s : Text) : Text := (s.reverse.dropWhile pySpace).reverse

-- Python str.strip()
def pyStrip (s : Text) : Text := rtrim (ltrim s)

-- SROSDriver._send_command_postprocess: the two substitutions, then strip.
def post (s : Text) : Text := pyStrip (subTime (subLoad s))

-- ===== lemmas about the normalizer =====

theorem dropWhile_dropWhile (p : Char → Bool) (l : Text) :
    (l.dropWhile p).dropWhile p = l.dropWhile p := by
  induction l with
  | nil => rfl
  | cons c cs ih =>
    by_cases h : p c <;> simp [List.dropWhile_cons, h, ih]

theorem dropWhile_append_last (p : Char → Bool) (a : Char) (h : p a = false)
    (xs : Text) : (xs ++ [a]).dropWhile p = xs.dropWhile p ++ [a] := by
  induction xs with
  | nil => simp [List.dropWhile_cons, h]
  | cons c cs ih =>
    by_cases hc : p c <;> simp [List.dropWhile_cons, hc, ih]

theorem dropWhile_head_false (p : Char → Bool) (l : Text) (a : Char) (m : Text)
    (h : l.dropWhile p = a :: m) : p a = false := by
  induction l with
  | nil => simp at h
  | cons c cs ih =>
    rw [List.dropWhile_cons] at h
    by_cases hc : p c
    · exact ih (by simpa [hc] using h)
    · obtain ⟨h1, _⟩ := List.cons.inj (by simpa [hc] using h)
      subst h1
      exact Bool.not_eq_true _ ▸ hc

theorem rtrim_cons (a : Char) (m : Text) (ha : pySpace a = false) :
    rtrim (a :: m) = a :: rtrim m := by
  unfold rtrim
  rw [List.reverse_cons, dropWhile_append_last _ _ ha, List.reverse_append]
  simp

theorem ltrim_rtrim_ltrim (s : Text) :
    ltrim (rtrim (ltrim s)) = rtrim (ltrim s) := by
  cases hm : ltrim s with
  | nil => simp [rtrim, ltrim]
  | cons a m =>
    have ha : pySpace a = false := dropWhile_head_false pySpace s a m hm
    rw [rtrim_cons a m ha]
    unfold ltrim
    simp [List.dropWhile_cons, ha]

theorem rtrim_rtrim (s : Text) : rtrim (rtrim s) = rtrim s := by
  unfold rtrim
  rw [List.reverse_reverse, dropWhile_dropWhile]

theorem pyStrip_idem (s : Text) : pyStrip (pyStrip s) = pyStrip s := by
  unfold pyStrip
  rw [ltrim_rtrim_ltrim s, rtrim_rtrim]

theorem splitLines_ne_nil (s : Text) : splitLines s ≠ [] := by
  induction s with
  | nil => simp [splitLines]
  | cons c cs ih =>
    unfold splitLines
    by_cases h : c = '\n'
    · simp [h]
    · cases h' : splitLines cs with
      | nil => exact absurd h' ih
      | cons l ls => simp [h, h']

theorem joinLines_splitLines (s : Text) : joinLines (splitLines s) = s := by
  induction s with
  | nil => rfl
  | cons c cs ih =>
    unfold splitLines
    by_cases h : c = '\n'
    · subst h
      rw [if_pos rfl]
      cases h' : splitLines cs with
      | nil => exact absurd h' (splitLines_ne_nil cs)
      | cons l ls =>
        rw [h'] at ih
        show joinLines ([] :: l :: ls) = '\n' :: cs
        rw [show joinLines ([] :: l :: ls) = [] ++ '\n' :: joinLines (l :: ls) from rfl]
        rw [List.nil_append, ih]
    · rw [if_neg h]
      cases h' : splitLines cs with
      | nil => exact absurd h' (splitLines_ne_nil cs)
      | cons l ls =>
        rw [h'] at ih
        cases ls with
        | nil =>
          show c :: l = c :: cs
          rw [show joinLines [l] = l from rfl] at ih
          rw [ih]
        | cons l2 ls2 =>
          show (c :: l) ++ '\n' :: joinLines (l2 :: ls2) = c :: cs
          rw [show joinLines (l :: l2 :: ls2) = l ++ '\n' :: joinLines (l2 :: ls2) from rfl] at ih
          rw [List.cons_append, ih]

theorem map_eq_self_of_fixed {α : Type} (f : α → α) (l : List α)
    (h : ∀ a ∈ l, f a = a) : l.map f = l := by
  induction l with
  | nil => rfl
  | cons a as ih =>
    rw [List.map_cons, h a (List.mem_cons_self a as),
      ih fun b hb => h b (List.mem_cons_of_mem a hb)]

theorem subLoad_fixed (s : Text)
    (h : ∀ l ∈ splitLines s, loadPat.isPrefixOf l = false) : subLoad s = s := by
  unfold subLoad
  rw [map_eq_self_of_fixed killLoad _ (fun l hl => by simp [killLoad, h l hl]),
    joinLines_splitLines]

theorem subTime_fixed (s : Text)
    (h : ∀ l ∈ splitLines s, timePat.isPrefixOf l = false) : subTime s = s := by
  unfold subTime
  rw [map_eq_self_of_fixed killTime _ (fun l hl => by simp [killTime, h l hl]),
    joinLines_splitLines]

/-- C3 (counterexample): the normalizer is not idempotent on every input.
On `"  Load for five secs"` the first pass leaves the line untouched (the
line-anchored banner pattern does not match because of the leading spaces)
but `strip` then exposes the banner at the start of the text, so a second
pass deletes it: `post (post x) = "" ≠ "Load for five secs" = post x`. -/
theorem post_idem_cex :
    post (post ("  Load for five secs".data)) ≠ post ("  Load for five secs".data) := by
  decide

/-- C3 (amended): the normalizer is idempotent on every input `x` such that
no line of `normalize(x)` starts with one of the banner prefixes
("Load for five secs" / "Time source is ").  (Trimming leading whitespace
can expose a banner line at the start of the text, which is the only way a
second pass can differ from the first.) -/
theorem post_idem_of_no_banner_lines (x : Text)
    (h : ∀ l ∈ splitLines (post x),
      loadPat.isPrefixOf l = false ∧ timePat.isPrefixOf l = false) :
    post (post x) = post x := by
  show pyStrip (subTime (subLoad (post x))) = post x
  rw [subLoad_fixed (post x) fun l hl => (h l hl).1,
    subTime_fixed (post x) fun l hl => (h l hl).2]
  exact pyStrip_idem (subTime (subLoad x))

/-- C3 witness: the amended idempotence theorem applied to a concrete input
containing a banner line, a content line and surrounding whitespace. -/
theorem post_idem_of_no_banner_lines_witness :
    (∀ l ∈ splitLines (post ("a\nLoad for five secs x\n  b ".data)),
      loadPat.isPrefixOf l = false ∧ timePat.isPrefixOf l = false) ∧
    post (post ("a\nLoad for five secs x\n  b ".data)) =
      post ("a\nLoad for five secs x\n  b ".data) := by
  refine ⟨by decide, post_idem_of_no_banner_lines _ (by decide)⟩

-- ===== Command executor: SROSDriver._send_command and friends =====

-- Substring test: `pat` occurs somewhere in `s` (Python `pat in s`).
def containsSub (pat : Text) : Text → Bool
  | [] => pat.isPrefixOf []
  | c :: cs => pat.isPrefixOf (c :: cs) || containsSub pat cs

-- The invalid-command markers checked by sros.py:
-- 'Bad command' / 'CLI Invalid'.
def hasMarker (s : Text) : Bool :=
  containsSub "Bad command".data s || containsSub "CLI Invalid".data s

-- Transport-level errors the underlying netmiko session can raise
-- (the `(socket.error, EOFError)` tuple of the except clauses).
inductive TErr where
  | socketError (msg : Text)
  | eofError (msg : Text)
deriving DecidableEq

-- str(e)
def TErr.msg : TErr → Text
  | .socketError m => m
  | .eofError m => m

-- Python-level exceptions that reach the caller of the driver operations.
-- `valueError` is `ValueError('Unable to execute command "…"')`, realizing
-- the spec's CommandError{command}; `typeError` realizes InvalidArgument;
-- `unboundLocal` is the NameError/UnboundLocalError of an unbound `output`;
-- `nameError` is a NameError for an undefined module-level name;
-- `raw` would be an untranslated transport error escaping to the caller.
inductive PyErr where
  | connectionClosed (msg : Text)
  | unboundLocal
  | valueError (cmd : Text)
  | typeError (msg : Text)
  | nameError (missing : Text)
  | raw (e : TErr)
deriving DecidableEq

-- `except (socket.error, EOFError) as e: raise ConnectionClosedException(str(e))`
-- as it appears in sros.py (where both names are imported).
def catchTransport : TErr → PyErr
  | .socketError m => .connectionClosed m
  | .eofError m => .connectionClosed m

-- The device oracle: self.device.send_command, one command in, raw output out.
abbrev Dev := Text → Except TErr Text

-- `command` argument of _send_command: a single string or a list
-- (the isinstance(command, list) test).
inductive PyCmd where
  | one (c : Text)
  | many (cs : List Text)

-- The for-loop of _send_command over a command list: send each command,
-- break on the first output carrying no invalid-command marker.  The
-- Option models the Python local `output`, unbound before the loop; the
-- second component is the list of commands actually sent.
def sendLoop (dev : Dev) : List Text → Option Text → Except TErr (Option Text) × List Text
  | [], out => (.ok out, [])
  | c :: cs, _ =>
    match dev c with
    | .error e => (.error e, [c])
    | .ok o =>
      if hasMarker o then
        ((sendLoop dev cs (some o)).1, c :: (sendLoop dev cs (some o)).2)
      else (.ok (some o), [c])

-- SROSDriver._send_command, with the list of commands sent as a trace.
-- The surrounding try/except translates socket/EOF errors via
-- `catchTransport`; reading the unbound `output` after an empty loop is
-- a NameError, which the except clause does not catch.
def sendCommandT (dev : Dev) : PyCmd → Except PyErr Text × List Text
  | .many cs =>
    match sendLoop dev cs none with
    | (.error e, tr) => (.error (catchTransport e), tr)
    | (.ok none, tr) => (.error .unboundLocal, tr)
    | (.ok (some o), tr) => (.ok (post o), tr)
  | .one c =>
    match dev c with
    | .error e => (.error (catchTransport e), [c])
    | .ok o => (.ok (post o), [c])

def sendCommand (dev : Dev) (c : PyCmd) : Except PyErr Text :=
  (sendCommandT dev c).1

-- SROSDriver._send_config_set: self.device.send_config_set(command) with
-- socket/EOF errors translated to ConnectionClosedException.
def sendConfigSet (cfg : List Text → Except TErr Text) (cs : List Text) :
    Except PyErr Text :=
  match cfg cs with
  | .ok o => .ok o
  | .error e => .error (catchTransport e)

-- SROSDriver.save_config: self._send_command(['admin save']).  The outer
-- except (socket.error, EOFError) can never fire: _send_command already
-- translated those.
def saveConfigSros (dev : Dev) : Except PyErr Text :=
  sendCommand dev (.many ["admin save".data])

-- CustomIOSDriver._send_config_set (custom_napalm/ios.py).  The module
-- never imports `socket` (nor ConnectionClosedException), so when the
-- wrapped call raises, evaluating the except clause
-- `except (socket.error, EOFError)` raises NameError('socket') instead of
-- re-signaling ConnectionClosed.
def iosSendConfigSet (cfg : List Text → Except TErr Text) (cs : List Text) :
    Except PyErr Text :=
  match cfg cs with
  | .ok o => .ok o
  | .error _ => .error (.nameError "socket".data)

-- CustomIOSDriver.save_config: same missing-import behavior on error.
def saveConfigIos (saveRes : Except TErr Text) : Except PyErr Text :=
  match saveRes with
  | .ok o => .ok o
  | .error _ => .error (.nameError "socket".data)

-- A Python argument that may or may not be a list (type(x) is list).
inductive PyArg where
  | list (cs : List Text)
  | str (s : Text)
  | int (n : Int)

def PyArg.isList : PyArg → Bool
  | .list _ => true
  | _ => false

-- SROSDriver.config_commands: the type check, then one call to
-- _send_config_set with the whole list; the second component is the list
-- of batched calls actually made to the session primitive.
def configCommandsSros (cfg : List Text → Except TErr Text) (arg : PyArg) :
    Except PyErr Text × List (List Text) :=
  match arg with
  | .list cs => (sendConfigSet cfg cs, [cs])
  | _ => (.error (.typeError "Please enter a valid list of commands!".data), [])

-- CustomIOSDriver.config_commands: identical structure (the error path of
-- the inner _send_config_set differs, see iosSendConfigSet).
def configCommandsIos (cfg : List Text → Except TErr Text) (arg : PyArg) :
    Except PyErr Text × List (List Text) :=
  match arg with
  | .list cs => (iosSendConfigSet cfg cs, [cs])
  | _ => (.error (.typeError "Please enter a valid list of commands!".data), [])

-- `cli_output.setdefault(command, {}); cli_output[command] = output`:
-- insert at the end if the key is new, otherwise update in place.
def assocSet : List (Text × Text) → Text → Text → List (Text × Text)
  | [], k, v => [(k, v)]
  | (k', v') :: rest, k, v =>
    if k' = k then (k', v) :: rest else (k', v') :: assocSet rest k v

-- The loop of SROSDriver.cli: _send_command on each command (single-string
-- path, hence normalized output), ValueError on an invalid-command marker;
-- the second component is the list of commands actually sent.
def cliGo (dev : Dev) : List Text → List (Text × Text) →
    Except PyErr (List (Text × Text)) × List Text
  | [], acc => (.ok acc, [])
  | c :: cs, acc =>
    match sendCommand dev (.one c) with
    | .error e => (.error e, [c])
    | .ok o =>
      if hasMarker o then (.error (.valueError c), [c])
      else ((cliGo dev cs (assocSet acc c o)).1, c :: (cliGo dev cs (assocSet acc c o)).2)

-- SROSDriver.cli on a list argument (the `type(commands) is not list`
-- branch is cliPy below).
def cliT (dev : Dev) (cmds : List Text) :
    Except PyErr (List (Text × Text)) × List Text :=
  cliGo dev cmds []

-- SROSDriver.cli including the type check.
def cliPy (dev : Dev) (arg : PyArg) :
    Except PyErr (List (Text × Text)) × List Text :=
  match arg with
  | .list cs => cliT dev cs
  | _ => ((.error (.typeError "Please enter a valid list of commands!".data)), [])

-- SROSDriver.get_config's result dictionary: always exactly the keys
-- startup / running / candidate.
structure Configs where
  startup : Text
  running : Text
  candidate : Text
deriving DecidableEq

-- SROSDriver.get_config.
def getConfig (dev : Dev) (retrieve : Text) : Except PyErr Configs :=
  if retrieve = "running".data ∨ retrieve = "all".data then
    match sendCommand dev (.one "admin display-config".data) with
    | .error e => .error e
    | .ok o => .ok ⟨[], o, []⟩
  else .ok ⟨[], [], []⟩

-- ===== Liveness check: SROSDriver.is_alive =====

-- What self.device.write_channel can raise during the probe.
inductive WriteErr where
  | socketError (msg : Text)
  | eofError (msg : Text)
  | unicodeDecodeError
  | attributeError
deriving DecidableEq

structure DeviceConn where
  writeResult : Text → Except WriteErr Unit
  transportActive : Bool

structure DriverState where
  transport : String
  device : Option DeviceConn

-- telnetlib.IAC + telnetlib.NOP
def telnetIacNop : Text := [Char.ofNat 255, Char.ofNat 241]

-- chr(0)
def sshNull : Text := [Char.ofNat 0]

-- SROSDriver.is_alive: result (or propagated exception) together with the
-- number of write_channel calls performed.  The telnet branch catches only
-- UnicodeDecodeError (-> alive) and AttributeError (-> not alive); the SSH
-- branch catches only socket.error/EOFError (-> not alive).  Anything else
-- propagates.
def isAliveSros (st : DriverState) : Except WriteErr Bool × Nat :=
  match st.device with
  | none => (.ok false, 0)
  | some d =>
    if st.transport = "telnet" then
      match d.writeResult telnetIacNop with
      | .ok _ => (.ok true, 1)
      | .error .unicodeDecodeError => (.ok true, 1)
      | .error .attributeError => (.ok false, 1)
      | .error e => (.error e, 1)
    else
      match d.writeResult sshNull with
      | .ok _ => (.ok d.transportActive, 1)
      | .error (.socketError _) => (.ok false, 1)
      | .error (.eofError _) => (.ok false, 1)
      | .error e => (.error e, 1)

-- ===== Connection opener: NAPALM.py open() =====

def pyLower (s : String) : String := String.mk (s.data.map Char.toLower)

-- The dev_os normalization at the top of open().
def normalizeVendorTag (s : String) : String :=
  if s = "XR" then "iosxr"
  else if s = "JUNIPER" then "junos"
  else pyLower s

inductive Transport where
  | telnet
  | ssh
deriving DecidableEq

inductive OpenEv where
  | construct (t : Transport)
  | openAttempt (t : Transport)
deriving DecidableEq

-- NAPALM.py open(): after tag normalization, for 'ios' construct a
-- telnet-transport driver and open it inside `try`; on any failure the
-- bare `except` constructs an SSH-default driver (without opening it).
-- Every other tag constructs an SSH-default driver.  In all paths the
-- final unconditional `device.open()` then runs, so a successful telnet
-- attempt is opened a second time.  `openFails t` says whether
-- device.open() raises for a driver using transport `t` (deterministic
-- per transport); the result is the transport of the returned device (or
-- none if open() escapes) plus the trace of construct/open events.
def napalmOpen (dev_os : String) (openFails : Transport → Bool) :
    Option Transport × List OpenEv :=
  let os := normalizeVendorTag dev_os
  if os = "ios" then
    if openFails .telnet then
      if openFails .ssh then
        (none, [.construct .telnet, .openAttempt .telnet, .construct .ssh, .openAttempt .ssh])
      else
        (some .ssh, [.construct .telnet, .openAttempt .telnet, .construct .ssh, .openAttempt .ssh])
    else
      (some .telnet, [.construct .telnet, .openAttempt .telnet, .openAttempt .telnet])
  else
    if openFails .ssh then (none, [.construct .ssh, .openAttempt .ssh])
    else (some .ssh, [.construct .ssh, .openAttempt .ssh])

-- Number of open() calls performed on a driver with transport t.
def countOpen (t : Transport) : List OpenEv → Nat
  | [] => 0
  | e :: es => (if e = OpenEv.openAttempt t then 1 else 0) + countOpen t es

-- ===== C10: _send_command on an empty command list =====

/-- C10: calling the SROS command executor with an empty candidate list sends
nothing (empty trace), binds no output, and fails with the unhandled
unbound-local error — in particular it neither returns an output nor raises
ConnectionClosed, since the NameError is not in the except clause's tuple. -/
theorem sendCommand_empty_list (dev : Dev) :
    sendCommandT dev (.many []) = (.error .unboundLocal, []) := rfl

-- ===== C6: vendor-tag normalization =====

/-- C6: the opener's vendor-tag normalization maps 'XR' to 'iosxr' and
'JUNIPER' to 'junos', every other tag to its lower-cased form unchanged,
and in particular {XR, JUNIPER, ios, IOS, junos} to
{iosxr, junos, ios, ios, junos}. -/
theorem normalizeVendorTag_spec :
    normalizeVendorTag "XR" = "iosxr" ∧
    normalizeVendorTag "JUNIPER" = "junos" ∧
    normalizeVendorTag "ios" = "ios" ∧
    normalizeVendorTag "IOS" = "ios" ∧
    normalizeVendorTag "junos" = "junos" ∧
    ∀ s : String, s ≠ "XR" → s ≠ "JUNIPER" → normalizeVendorTag s = pyLower s := by
  refine ⟨by decide, by decide, by decide, by decide, by decide, ?_⟩
  intro s h1 h2
  unfold normalizeVendorTag
  rw [if_neg h1, if_neg h2]

/-- C6 witness: the general lower-casing clause applied to the tag "NXOS". -/
theorem normalizeVendorTag_spec_witness :
    normalizeVendorTag "NXOS" = pyLower "NXOS" ∧ pyLower "NXOS" = "nxos" :=
  ⟨normalizeVendorTag_spec.2.2.2.2.2 "NXOS" (by decide) (by decide), by decide⟩

-- ===== C9: get_config scopes =====

/-- C9: for every retrieve scope in {startup, running, candidate, all},
get_config returns the record with exactly the keys startup/running/candidate
(the Configs structure); startup and candidate are always the empty string,
and running holds the normalized output of 'admin display-config' exactly
when the scope is 'running' or 'all'. -/
theorem getConfig_scopes (dev : Dev) (raw : Text)
    (h : dev "admin display-config".data = .ok raw) :
    getConfig dev "startup".data = .ok ⟨[], [], []⟩ ∧
    getConfig dev "candidate".data = .ok ⟨[], [], []⟩ ∧
    getConfig dev "running".data = .ok ⟨[], post raw, []⟩ ∧
    getConfig dev "all".data = .ok ⟨[], post raw, []⟩ := by
  refine ⟨?_, ?_, ?_, ?_⟩
  · unfold getConfig; rw [if_neg (by decide)]
  · unfold getConfig; rw [if_neg (by decide)]
  · unfold getConfig; rw [if_pos (by decide)]; simp [sendCommand, sendCommandT, h]
  · unfold getConfig; rw [if_pos (by decide)]; simp [sendCommand, sendCommandT, h]

/-- C9 witness: get_config on a concrete device whose 'admin display-config'
output carries surrounding whitespace that normalization strips. -/
theorem getConfig_scopes_witness :
    getConfig (fun _ => Except.ok " configure system \n".data) "startup".data
      = .ok ⟨[], [], []⟩ ∧
    getConfig (fun _ => Except.ok " configure system \n".data) "all".data
      = .ok ⟨[], post " configure system \n".data, []⟩ :=
  ⟨(getConfig_scopes (fun _ => Except.ok " configure system \n".data)
      " configure system \n".data rfl).1,
   (getConfig_scopes (fun _ => Except.ok " configure system \n".data)
      " configure system \n".data rfl).2.2.2⟩

-- ===== C7: config_commands =====

/-- C7: a non-list argument to config_commands fails immediately with the
TypeError (the spec's InvalidArgument) and no batched session call is made
(empty call trace); a list argument is forwarded whole to the session's
send_config_set primitive in a single call and the transcript is returned
exactly as the session produced it, with no normalization applied.  Holds
for both the SROS and the custom IOS driver. -/
theorem config_commands_spec :
    (∀ (cfg : List Text → Except TErr Text) (arg : PyArg), arg.isList = false →
      configCommandsSros cfg arg
          = (.error (.typeError "Please enter a valid list of commands!".data), []) ∧
      configCommandsIos cfg arg
          = (.error (.typeError "Please enter a valid list of commands!".data), [])) ∧
    (∀ (cfg : List Text → Except TErr Text) (cs : List Text) (o : Text),
      cfg cs = .ok o →
      configCommandsSros cfg (.list cs) = (.ok o, [cs]) ∧
      configCommandsIos cfg (.list cs) = (.ok o, [cs])) := by
  constructor
  · intro cfg arg h
    cases arg with
    | list cs => simp [PyArg.isList] at h
    | str s => exact ⟨rfl, rfl⟩
    | int n => exact ⟨rfl, rfl⟩
  · intro cfg cs o h
    constructor <;>
      simp [configCommandsSros, configCommandsIos, sendConfigSet, iosSendConfigSet, h]

/-- C7 witness: a string argument is rejected with no session call; a list
argument returns the raw transcript (note the surrounding whitespace that
`post` would have stripped is preserved). -/
theorem config_commands_spec_witness :
    configCommandsSros (fun _ => Except.ok "  A:7750-1>config# raw  ".data)
        (.str "not a list".data)
      = (.error (.typeError "Please enter a valid list of commands!".data), []) ∧
    configCommandsSros (fun _ => Except.ok "  A:7750-1>config# raw  ".data)
        (.list ["port 1/1/3".data])
      = (.ok "  A:7750-1>config# raw  ".data, [["port 1/1/3".data]]) :=
  ⟨(config_commands_spec.1 (fun _ => Except.ok "  A:7750-1>config# raw  ".data)
      (.str "not a list".data) (by decide)).1,
   (config_commands_spec.2 (fun _ => Except.ok "  A:7750-1>config# raw  ".data)
      ["port 1/1/3".data] "  A:7750-1>config# raw  ".data rfl).1⟩

-- ===== C5: transport-error translation (code bug in the IOS driver) =====

/-- C5: the SROS driver's send / config-batch / save operations translate a
socket or end-of-stream error from the session into ConnectionClosed carrying
the original message, as claimed; but the custom IOS driver's
_send_config_set and save_config cannot — custom_napalm/ios.py never imports
`socket` or ConnectionClosedException, so evaluating its except clause raises
NameError('socket') instead.  This theorem evaluates both drivers at failing
inputs: the SROS operations yield ConnectionClosed, the IOS operations yield
the NameError, refuting the uniform-translation claim for the IOS driver. -/
theorem transport_error_translation_divergence :
    sendCommand (fun _ => .error (.socketError "boom".data)) (.one "show uptime".data)
      = .error (.connectionClosed "boom".data) ∧
    sendCommand (fun _ => .error (.eofError "eof".data)) (.many ["a".data, "b".data])
      = .error (.connectionClosed "eof".data) ∧
    sendConfigSet (fun _ => .error (.socketError "boom".data)) ["a".data]
      = .error (.connectionClosed "boom".data) ∧
    saveConfigSros (fun _ => .error (.socketError "boom".data))
      = .error (.connectionClosed "boom".data) ∧
    iosSendConfigSet (fun _ => .error (.socketError "boom".data)) ["a".data]
      = .error (.nameError "socket".data) ∧
    saveConfigIos (.error (.eofError "eof".data))
      = .error (.nameError "socket".data) :=
  ⟨rfl, rfl, rfl, rfl, rfl, rfl⟩

-- ===== C4: connection-opener transport negotiation =====

/-- C4 (counterexample): with the 'ios' tag and a telnet open that succeeds,
the returned driver's session is opened twice, not once — open() is called
inside the try block and then again by the unconditional `device.open()`
after the if/else. -/
theorem napalmOpen_double_open_cex :
    (napalmOpen "ios" (fun _ => false)).1 = some .telnet ∧
    countOpen .telnet (napalmOpen "ios" (fun _ => false)).2 = 2 := by
  constructor <;> rfl

/-- C4 (amended): for the 'ios' tag telnet is constructed and opened first,
and an SSH-default driver is constructed exactly when that telnet attempt
fails; every other tag opens directly with SSH defaults; every successfully
returned driver has had open() succeed on it — but on the ios telnet-success
path open() runs twice on the returned driver (once in the negotiation
attempt, once in the final unconditional open), and exactly once on every
other successful path. -/
theorem napalmOpen_spec (os : String) (fails : Transport → Bool) :
    ((napalmOpen os fails).1 = some .telnet →
      normalizeVendorTag os = "ios" ∧ fails .telnet = false ∧
      countOpen .telnet (napalmOpen os fails).2 = 2) ∧
    ((napalmOpen os fails).1 = some .ssh →
      fails .ssh = false ∧ countOpen .ssh (napalmOpen os fails).2 = 1) ∧
    (normalizeVendorTag os = "ios" →
      (napalmOpen os fails).2.head? = some (.construct .telnet)) ∧
    (normalizeVendorTag os ≠ "ios" →
      (napalmOpen os fails).2 = [.construct .ssh, .openAttempt .ssh]) ∧
    (normalizeVendorTag os = "ios" →
      (OpenEv.construct .ssh ∈ (napalmOpen os fails).2 ↔ fails .telnet = true)) ∧
    ((napalmOpen os fails).1 = none → fails .ssh = true) := by
  by_cases hos : normalizeVendorTag os = "ios" <;>
    cases ht : fails .telnet <;> cases hs : fails .ssh <;>
      simp [napalmOpen, hos, ht, hs, countOpen]

/-- C4 witness: the amended theorem applied to a non-ios tag ('XR') and to
the ios telnet-failure path. -/
theorem napalmOpen_spec_witness :
    (napalmOpen "XR" (fun _ => false)).2 = [.construct .ssh, .openAttempt .ssh] ∧
    countOpen .ssh (napalmOpen "ios" (fun t => t == Transport.telnet)).2 = 1 :=
  ⟨(napalmOpen_spec "XR" (fun _ => false)).2.2.2.1 (by decide),
   ((napalmOpen_spec "ios" (fun t => t == Transport.telnet)).2.1 (by decide)).2⟩

-- ===== C8: is_alive =====

/-- C8 (counterexample): with an open telnet session whose probe raises a
socket error, is_alive propagates the raw error to the caller — the telnet
branch only catches UnicodeDecodeError and AttributeError — refuting the
claim that a transport error during the probe is never propagated. -/
theorem isAlive_telnet_probe_cex :
    isAliveSros ⟨"telnet",
        some ⟨fun _ => .error (.socketError "connection reset".data), true⟩⟩
      = (.error (.socketError "connection reset".data), 1) ∧
    isAliveSros ⟨"telnet",
        some ⟨fun _ => .error (.socketError "connection reset".data), true⟩⟩
      ≠ (.ok false, 1) := by
  refine ⟨rfl, fun hc => ?_⟩
  exact Except.noConfusion (congrArg Prod.fst hc)

/-- C8 (amended): is_alive returns not-alive immediately with zero probe
writes when no session is open; over SSH a socket or end-of-stream probe
error yields not-alive without an exception; over Telnet an AttributeError
yields not-alive and a UnicodeDecodeError yields alive, but a socket or
end-of-stream error during the Telnet probe propagates to the caller. -/
theorem isAlive_spec (st : DriverState) :
    (st.device = none → isAliveSros st = (.ok false, 0)) ∧
    (∀ d, st.device = some d → st.transport ≠ "telnet" →
      ∀ m, (d.writeResult sshNull = .error (.socketError m) ∨
            d.writeResult sshNull = .error (.eofError m)) →
        isAliveSros st = (.ok false, 1)) ∧
    (∀ d, st.device = some d → st.transport = "telnet" →
      (d.writeResult telnetIacNop = .error .attributeError →
        isAliveSros st = (.ok false, 1)) ∧
      (d.writeResult telnetIacNop = .error .unicodeDecodeError →
        isAliveSros st = (.ok true, 1)) ∧
      (∀ m, d.writeResult telnetIacNop = .error (.socketError m) →
        isAliveSros st = (.error (.socketError m), 1)) ∧
      (∀ m, d.writeResult telnetIacNop = .error (.eofError m) →
        isAliveSros st = (.error (.eofError m), 1))) := by
  obtain ⟨tr, dev⟩ := st
  refine ⟨?_, ?_, ?_⟩
  · intro h
    simp only at h
    simp [isAliveSros, h]
  · intro d hd htel m hm
    simp only at hd htel
    rcases hm with hm | hm <;> simp [isAliveSros, hd, htel, hm]
  · intro d hd htel
    simp only at hd htel
    refine ⟨fun h => ?_, fun h => ?_, fun m h => ?_, fun m h => ?_⟩ <;>
      simp [isAliveSros, hd, htel, h]

/-- C8 witness: the amended theorem applied to a closed driver (no session)
and to an open SSH session whose probe write raises EOFError. -/
theorem isAlive_spec_witness :
    isAliveSros ⟨"ssh", none⟩ = (.ok false, 0) ∧
    isAliveSros ⟨"ssh", some ⟨fun _ => .error (.eofError "eof".data), true⟩⟩
      = (.ok false, 1) :=
  ⟨(isAlive_spec ⟨"ssh", none⟩).1 rfl,
   (isAlive_spec ⟨"ssh", some ⟨fun _ => .error (.eofError "eof".data), true⟩⟩).2.1
      ⟨fun _ => .error (.eofError "eof".data), true⟩ rfl (by decide) "eof".data
      (Or.inr rfl)⟩

-- ===== C2: ordered candidate-list fallback probing =====

theorem sendLoop_first_valid (f : Text → Text) (good : Text) (rest : List Text)
    (hgood : hasMarker (f good) = false) :
    ∀ pre, (∀ c ∈ pre, hasMarker (f c) = true) → ∀ acc,
    sendLoop (fun c => Except.ok (f c)) (pre ++ good :: rest) acc
      = (.ok (some (f good)), pre ++ [good]) := by
  intro pre
  induction pre with
  | nil =>
    intro _ acc
    simp [sendLoop, hgood]
  | cons c pre ih =>
    intro hpre acc
    have hc : hasMarker (f c) = true := hpre c (List.mem_cons_self c pre)
    simp only [List.cons_append, sendLoop, hc, if_true, List.append_eq]
    rw [ih (fun x hx => hpre x (List.mem_cons_of_mem c hx)) (some (f c))]

theorem sendLoop_all_invalid (f : Text → Text) :
    ∀ pre lastC, (∀ c ∈ pre ++ [lastC], hasMarker (f c) = true) → ∀ acc,
    sendLoop (fun c => Except.ok (f c)) (pre ++ [lastC]) acc
      = (.ok (some (f lastC)), pre ++ [lastC]) := by
  intro pre
  induction pre with
  | nil =>
    intro lastC h acc
    have hl : hasMarker (f lastC) = true := h lastC (by simp)
    simp [sendLoop, hl]
  | cons c pre ih =>
    intro lastC h acc
    have hc : hasMarker (f c) = true := h c (by simp)
    simp only [List.cons_append, sendLoop, hc, if_true, List.append_eq]
    rw [ih lastC (fun x hx => h x (by simp [List.mem_append] at hx ⊢; tauto))
      (some (f c))]

/-- C2: on a non-empty ordered candidate list the executor sends candidates
in order and returns the normalized output of the first candidate whose raw
output carries no invalid-command marker, sending nothing after it (the
trace is exactly the invalid prefix plus that candidate); and when every
candidate's output carries a marker it returns the last candidate's
normalized output without failing. -/
theorem sendCommand_candidates_spec (f : Text → Text) :
    (∀ pre good rest, (∀ c ∈ pre, hasMarker (f c) = true) →
      hasMarker (f good) = false →
      sendCommandT (fun c => Except.ok (f c)) (.many (pre ++ good :: rest))
        = (.ok (post (f good)), pre ++ [good])) ∧
    (∀ pre lastC, (∀ c ∈ pre ++ [lastC], hasMarker (f c) = true) →
      sendCommandT (fun c => Except.ok (f c)) (.many (pre ++ [lastC]))
        = (.ok (post (f lastC)), pre ++ [lastC])) := by
  constructor
  · intro pre good rest hpre hgood
    simp only [sendCommandT, sendLoop_first_valid f good rest hgood pre hpre none]
  · intro pre lastC h
    simp only [sendCommandT, sendLoop_all_invalid f pre lastC h none]

-- Concrete device behavior for the C2 witness: the first candidate is
-- rejected, the second accepted, the third never sent.
def c2dev (c : Text) : Text :=
  if c = "show version".data then "CLI Invalid: show version".data
  else "  TiMOS-B output  ".data

/-- C2 witness: the first-valid clause on a three-candidate list whose first
candidate is marked invalid, and the all-invalid clause on a two-candidate
list. -/
theorem sendCommand_candidates_spec_witness :
    sendCommandT (fun c => Except.ok (c2dev c))
        (.many (["show version".data] ++ "show uptime".data :: ["show users".data]))
      = (.ok (post (c2dev "show uptime".data)),
         ["show version".data] ++ ["show uptime".data]) ∧
    sendCommandT (fun _ => Except.ok "Bad command seen".data)
        (.many (["cmd1".data] ++ ["cmd2".data]))
      = (.ok (post "Bad command seen".data), ["cmd1".data] ++ ["cmd2".data]) :=
  ⟨(sendCommand_candidates_spec c2dev).1 ["show version".data] "show uptime".data
      ["show users".data] (by decide) (by decide),
   (sendCommand_candidates_spec (fun _ => "Bad command seen".data)).2
      ["cmd1".data] "cmd2".data (by decide)⟩

-- ===== C1: batch cli =====

theorem assocSet_append (k v : Text) :
    ∀ acc : List (Text × Text), (∀ p ∈ acc, p.1 ≠ k) →
    assocSet acc k v = acc ++ [(k, v)] := by
  intro acc
  induction acc with
  | nil => intro _; rfl
  | cons p ps ih =>
    intro h
    obtain ⟨k', v'⟩ := p
    have hk : k' ≠ k := h (k', v') (List.mem_cons_self _ _)
    simp only [assocSet, if_neg hk, List.cons_append]
    rw [ih fun q hq => h q (List.mem_cons_of_mem _ hq)]

theorem foldl_assocSet (g : Text → Text) :
    ∀ (cs : List Text) (acc : List (Text × Text)), cs.Nodup →
      (∀ p ∈ acc, p.1 ∉ cs) →
    cs.foldl (fun a c => assocSet a c (g c)) acc
      = acc ++ cs.map (fun c => (c, g c)) := by
  intro cs
  induction cs with
  | nil => intro acc _ _; simp
  | cons c cs ih =>
    intro acc hnd hdis
    rw [List.foldl_cons]
    have h1 : ∀ p ∈ acc, p.1 ≠ c := by
      intro p hp
      have := hdis p hp
      simp [List.mem_cons] at this
      exact this.1
    rw [assocSet_append c (g c) acc h1]
    have h2 : ∀ p ∈ acc ++ [(c, g c)], p.1 ∉ cs := by
      intro p hp
      rcases List.mem_append.mp hp with hp | hp
      · have := hdis p hp
        simp [List.mem_cons] at this
        exact this.2
      · simp at hp
        rw [hp]
        exact (List.nodup_cons.mp hnd).1
    rw [ih (acc ++ [(c, g c)]) (List.nodup_cons.mp hnd).2 h2]
    simp

theorem cliGo_ok (f : Text → Text) :
    ∀ (cmds : List Text) (acc : List (Text × Text)),
      (∀ c ∈ cmds, hasMarker (post (f c)) = false) →
    cliGo (fun c => Except.ok (f c)) cmds acc
      = (.ok (cmds.foldl (fun a c => assocSet a c (post (f c))) acc), cmds) := by
  intro cmds
  induction cmds with
  | nil => intro acc _; rfl
  | cons c cs ih =>
    intro acc h
    have hc : hasMarker (post (f c)) = false := h c (List.mem_cons_self c cs)
    simp only [cliGo]
    have hs : sendCommand (fun c => Except.ok (f c)) (.one c) = .ok (post (f c)) := rfl
    rw [hs]
    simp only [hc, Bool.false_eq_true, if_false]
    rw [ih (assocSet acc c (post (f c))) (fun x hx => h x (List.mem_cons_of_mem c hx)),
      List.foldl_cons]

theorem cliGo_err (f : Text → Text) (bad : Text) (rest : List Text)
    (hbad : hasMarker (post (f bad)) = true) :
    ∀ pre, (∀ c ∈ pre, hasMarker (post (f c)) = false) → ∀ acc,
    cliGo (fun c => Except.ok (f c)) (pre ++ bad :: rest) acc
      = (.error (.valueError bad), pre ++ [bad]) := by
  intro pre
  induction pre with
  | nil =>
    intro _ acc
    simp only [List.nil_append, cliGo]
    have hs : sendCommand (fun c => Except.ok (f c)) (.one bad) = .ok (post (f bad)) := rfl
    rw [hs]
    simp [hbad]
  | cons c pre ih =>
    intro hpre acc
    have hc : hasMarker (post (f c)) = false := hpre c (List.mem_cons_self c pre)
    simp only [List.cons_append, cliGo, List.append_eq]
    have hs : sendCommand (fun c => Except.ok (f c)) (.one c) = .ok (post (f c)) := rfl
    rw [hs]
    simp only [hc, Bool.false_eq_true, if_false]
    rw [ih (fun x hx => hpre x (List.mem_cons_of_mem c hx))
      (assocSet acc c (post (f c)))]

/-- C1: cli executes the commands in order via send (the trace equals the
processed prefix of the input); if the normalized output of some command
carries an invalid-command marker and every earlier command was clean, the
whole call fails with the ValueError naming that command (the spec's
CommandError) and no mapping at all is returned — in particular no key for
that command or any later one; otherwise it returns the mapping from each
command to its normalized output in insertion order. -/
theorem cli_batch_spec (f : Text → Text) :
    (∀ cmds : List Text, cmds.Nodup →
      (∀ c ∈ cmds, hasMarker (post (f c)) = false) →
      cliT (fun c => Except.ok (f c)) cmds
        = (.ok (cmds.map fun c => (c, post (f c))), cmds)) ∧
    (∀ pre bad rest, (∀ c ∈ pre, hasMarker (post (f c)) = false) →
      hasMarker (post (f bad)) = true →
      cliT (fun c => Except.ok (f c)) (pre ++ bad :: rest)
        = (.error (.valueError bad), pre ++ [bad])) := by
  constructor
  · intro cmds hnd h
    unfold cliT
    rw [cliGo_ok f cmds [] h,
      foldl_assocSet (fun c => post (f c)) cmds [] hnd (by simp)]
    simp
  · intro pre bad rest hpre hbad
    exact cliGo_err f bad rest hbad pre hpre []

-- Concrete device behavior for the C1 witness: "bogus-cmd" yields
-- "CLI Invalid", every other command yields clean text.
def c1dev (c : Text) : Text :=
  if c = "bogus-cmd".data then "CLI Invalid".data else 'o' :: c

/-- C1 witness: the success clause on two clean commands, and the failure
clause on the spec's scenario cli(["show uptime", "bogus-cmd"]). -/
theorem cli_batch_spec_witness :
    cliT (fun c => Except.ok (c1dev c)) ["show uptime".data, "show users".data]
      = (.ok (["show uptime".data, "show users".data].map
            fun c => (c, post (c1dev c))),
         ["show uptime".data, "show users".data]) ∧
    cliT (fun c => Except.ok (c1dev c)) (["show uptime".data] ++ "bogus-cmd".data :: [])
      = (.error (.valueError "bogus-cmd".data),
         ["show uptime".data] ++ ["bogus-cmd".data]) :=
  ⟨(cli_batch_spec c1dev).1 ["show uptime".data, "show users".data]
      (by decide) (by decide),
   (cli_batch_spec c1dev).2 ["show uptime".data] "bogus-cmd".data []
      (by decide) (by decide)⟩

end Napalm
